import Mathlib

/-!
Verification development for the libslirp NAT network transport driver
(src/VBox/Devices/Network/DrvNATlibslirp.cpp).

The definitions below are a shallow embedding of the driver's code.
Machine integers are modelled as Nat with explicit reduction modulo 2^32
where the C code performs 32-bit unsigned arithmetic.  Status codes
(iprt/err.h and VBox/err.h are outside the covered sources) are modelled
as distinct Int constants; the code only compares them for equality and
tests RT_SUCCESS, i.e. non-negativity, so the exact numeric values are
immaterial.
-/

namespace DrvNATlibslirp

/-! ## Status codes (VBox/err.h, iprt/err.h; distinct, sign-correct stand-ins) -/

def VINF_SUCCESS : Int := 0
def VERR_NET_DOWN : Int := -464
def VERR_NET_NO_BUFFER_SPACE : Int := -462
def VERR_INVALID_PARAMETER : Int := -2
def VERR_NO_MEMORY : Int := -8
def VERR_TRY_AGAIN : Int := -18
def VERR_TIMEOUT : Int := -121
def VERR_INTERRUPTED : Int := -304

/-- RT_SUCCESS(rc): a VBox status code signals success iff it is non-negative. -/
def RT_SUCCESS (rc : Int) : Bool := decide (0 ≤ rc)

/-- DRVNAT_MAXFRAMESIZE = 16 * 1024. -/
def DRVNAT_MAXFRAMESIZE : Nat := 16 * 1024

/-- DRVNAT_DEFAULT_TIMEOUT = 3600 * 1000 milliseconds. -/
def DRVNAT_DEFAULT_TIMEOUT : Nat := 3600 * 1000

/-! ## PDM thread and link states -/

/-- PDMTHREADSTATE: the three states the driver inspects. -/
inductive PDMTHREADSTATE where
  | initing
  | running
  | terminating
deriving DecidableEq, Repr

/-- PDMNETWORKLINKSTATE. -/
inductive PDMNETWORKLINKSTATE where
  | up
  | down
  | down_resume
deriving DecidableEq, Repr

/-! ## Scatter/gather buffers

PDMSCATTERGATHER as used by this driver: exactly one segment.  Pointer
fields are modelled by whether they are non-null; pvAllocator, when
non-null, aliases aSegs[0].pvSeg (ordinary frame), and pvUser, when
non-null, is the copied GSO descriptor (GSO frame). -/

/-- PDMSCATTERGATHER_FLAGS_* (VBox/vmm/pdmifs.h, outside the covered sources). -/
def PDMSCATTERGATHER_FLAGS_MAGIC : Nat := 0xb1b10000

def PDMSCATTERGATHER_FLAGS_OWNER_1 : Nat := 0x1

/-- One-segment scatter/gather buffer state as this driver uses it. -/
structure PDMSCATTERGATHER where
  fFlags : Nat
  cbUsed : Nat
  cbAvailable : Nat
  cSegs : Nat
  /-- aSegs[0].cbSeg -/
  cbSeg : Nat
  /-- aSegs[0].pvSeg is non-null -/
  pvSegValid : Bool
  /-- pvAllocator is non-null (ordinary frame: aliases the segment) -/
  pvAllocator : Bool
  /-- pvUser is non-null (GSO frame: copied GSO descriptor) -/
  pvUser : Bool
deriving DecidableEq, Repr

/-- Memory released by drvNATFreeSgBuf, in release order. -/
inductive FreeEv where
  /-- RTMemFree of aSegs[0].pvSeg -/
  | freeSeg
  /-- RTMemFree of the copied GSO descriptor (pvUser) -/
  | freeGsoCopy
  /-- RTMemFree of the PDMSCATTERGATHER header itself -/
  | freeHdr
deriving DecidableEq, Repr

/-- drvNATFreeSgBuf: the sequence of RTMemFree calls it performs on a buffer. -/
def drvNATFreeSgBuf (pSgBuf : PDMSCATTERGATHER) : List FreeEv :=
  if pSgBuf.pvAllocator then
    [FreeEv.freeSeg, FreeEv.freeHdr]
  else if pSgBuf.pvUser then
    [FreeEv.freeSeg, FreeEv.freeGsoCopy, FreeEv.freeHdr]
  else
    [FreeEv.freeHdr]

/-! ## drvNATNetworkUp_SendBuf -/

/-- Externally visible actions of drvNATNetworkUp_SendBuf. -/
inductive SendEv where
  /-- RTReqQueueCallEx(hSlirpReqQueue, ..., drvNATSendWorker, 2, pThis, pSgBuf) -/
  | enqueueSendWorker
  /-- drvNATNotifyNATThread -/
  | notifyNATThread
  /-- a free performed via drvNATFreeSgBuf -/
  | free (e : FreeEv)
deriving DecidableEq, Repr

/-- Result of drvNATNetworkUp_SendBuf: status code plus its visible actions. -/
structure SendBufResult where
  rc : Int
  events : List SendEv
deriving DecidableEq, Repr

/-- drvNATNetworkUp_SendBuf.  The function reads only the NAT thread's state
(pThis->pSlirpThread->enmState) and the outcome of the engine-queue enqueue;
the instance's link state (pThis->enmLinkState) is not consulted here (it is
consulted later, by drvNATSendWorker on the NAT thread), so it is passed as
an unused argument. -/
def drvNATNetworkUp_SendBuf (threadState : PDMTHREADSTATE)
    (enmLinkState : PDMNETWORKLINKSTATE) (queueAccepts : Bool)
    (pSgBuf : PDMSCATTERGATHER) : SendBufResult :=
  let _ := enmLinkState
  if threadState = PDMTHREADSTATE.running then
    if queueAccepts then
      { rc := VINF_SUCCESS
        events := [SendEv.enqueueSendWorker, SendEv.notifyNATThread] }
    else
      { rc := VERR_NET_NO_BUFFER_SPACE
        events := (drvNATFreeSgBuf pSgBuf).map SendEv.free }
  else
    { rc := VERR_NET_DOWN
      events := (drvNATFreeSgBuf pSgBuf).map SendEv.free }

/-- Result of drvNATSendWorker: how many frames it handed to the engine's
slirp_input, how many 16 KiB scratch segments it allocated and freed on the
GSO path, and the frees done by the final drvNATFreeSgBuf call. -/
structure SendWorkerResult where
  inputs : Nat
  scratchAllocs : Nat
  scratchFrees : Nat
  frees : List FreeEv
deriving DecidableEq, Repr

/-- drvNATSendWorker (runs on the NAT thread).  gsoValid models the result of
PDMNetGsoIsValid on the copied descriptor, and cSegs the result of
PDMNetGsoCalcSegmentCount (both are inline helpers from pdmnetinline.h,
outside the covered sources). -/
def drvNATSendWorker (enmLinkState : PDMNETWORKLINKSTATE)
    (pSgBuf : PDMSCATTERGATHER) (gsoValid : Bool) (cSegs : Nat) :
    SendWorkerResult :=
  if enmLinkState = PDMNETWORKLINKSTATE.up then
    if pSgBuf.pvAllocator then
      -- a normal frame: hand it to slirp_input directly
      { inputs := 1, scratchAllocs := 0, scratchFrees := 0
        frees := drvNATFreeSgBuf pSgBuf }
    else if gsoValid then
      -- GSO frame: per segment, allocate a scratch, carve, input, free
      { inputs := cSegs, scratchAllocs := cSegs, scratchFrees := cSegs
        frees := drvNATFreeSgBuf pSgBuf }
    else
      { inputs := 0, scratchAllocs := 0, scratchFrees := 0
        frees := drvNATFreeSgBuf pSgBuf }
  else
    { inputs := 0, scratchAllocs := 0, scratchFrees := 0
      frees := drvNATFreeSgBuf pSgBuf }

/-- Number of segment-memory releases in a list of SendBuf actions. -/
def countFreeSeg (evs : List SendEv) : Nat :=
  evs.count (SendEv.free FreeEv.freeSeg)

/-- Number of GSO-copy releases in a list of SendBuf actions. -/
def countFreeGso (evs : List SendEv) : Nat :=
  evs.count (SendEv.free FreeEv.freeGsoCopy)

/-- An ordinary (non-GSO) 128-byte buffer holding a 60-byte frame, as
drvNATNetworkUp_AllocBuf produces it. -/
def sgBufSample : PDMSCATTERGATHER :=
  { fFlags := PDMSCATTERGATHER_FLAGS_MAGIC ||| PDMSCATTERGATHER_FLAGS_OWNER_1
    cbUsed := 60, cbAvailable := 128, cSegs := 1, cbSeg := 128
    pvSegValid := true, pvAllocator := true, pvUser := false }

/-! ## Poll-event translation (drvNAT_PollEventSlirpToHost / HostToSlirp)

Engine flags are from libslirp.h; host flags are the poll.h values on
POSIX-style hosts and the winsock2.h values on Windows-style hosts. -/

def SLIRP_POLL_IN : Nat := 1
def SLIRP_POLL_OUT : Nat := 2
def SLIRP_POLL_PRI : Nat := 4
def SLIRP_POLL_ERR : Nat := 8
def SLIRP_POLL_HUP : Nat := 16

/-- poll.h flags on POSIX-style hosts (Linux values). -/
def posix_POLLIN : Nat := 0x001
def posix_POLLPRI : Nat := 0x002
def posix_POLLOUT : Nat := 0x004
def posix_POLLERR : Nat := 0x008
def posix_POLLHUP : Nat := 0x010
def posix_POLLRDNORM : Nat := 0x040
def posix_POLLRDBAND : Nat := 0x080
def posix_POLLWRNORM : Nat := 0x100

/-- winsock2.h poll flags on Windows-style hosts. -/
def win_POLLRDNORM : Nat := 0x100
def win_POLLRDBAND : Nat := 0x200
def win_POLLIN : Nat := win_POLLRDNORM ||| win_POLLRDBAND
def win_POLLPRI : Nat := 0x400
def win_POLLWRNORM : Nat := 0x010
def win_POLLOUT : Nat := win_POLLWRNORM
def win_POLLERR : Nat := 0x001
def win_POLLHUP : Nat := 0x002

/-- drvNAT_PollEventSlirpToHost, the branch compiled when RT_OS_WINDOWS is
not defined. -/
def drvNAT_PollEventSlirpToHost_posix (iEvents : Nat) : Nat :=
  let iRet : Nat := 0
  let iRet := if iEvents &&& SLIRP_POLL_IN ≠ 0 then iRet ||| posix_POLLIN else iRet
  let iRet := if iEvents &&& SLIRP_POLL_OUT ≠ 0 then iRet ||| posix_POLLOUT else iRet
  let iRet := if iEvents &&& SLIRP_POLL_PRI ≠ 0 then iRet ||| posix_POLLPRI else iRet
  let iRet := if iEvents &&& SLIRP_POLL_ERR ≠ 0 then iRet ||| posix_POLLERR else iRet
  let iRet := if iEvents &&& SLIRP_POLL_HUP ≠ 0 then iRet ||| posix_POLLHUP else iRet
  iRet

/-- drvNAT_PollEventSlirpToHost, the RT_OS_WINDOWS branch. -/
def drvNAT_PollEventSlirpToHost_win (iEvents : Nat) : Nat :=
  let iRet : Nat := 0
  let iRet := if iEvents &&& SLIRP_POLL_IN ≠ 0 then iRet ||| (win_POLLRDNORM ||| win_POLLRDBAND) else iRet
  let iRet := if iEvents &&& SLIRP_POLL_OUT ≠ 0 then iRet ||| win_POLLWRNORM else iRet
  let iRet := if iEvents &&& SLIRP_POLL_PRI ≠ 0 then iRet ||| win_POLLIN else iRet
  let iRet := if iEvents &&& SLIRP_POLL_ERR ≠ 0 then iRet ||| 0 else iRet
  let iRet := if iEvents &&& SLIRP_POLL_HUP ≠ 0 then iRet ||| 0 else iRet
  iRet

/-- drvNAT_PollEventHostToSlirp, the branch compiled when RT_OS_WINDOWS is
not defined. -/
def drvNAT_PollEventHostToSlirp_posix (iEvents : Nat) : Nat :=
  let iRet : Nat := 0
  let iRet := if iEvents &&& posix_POLLIN ≠ 0 then iRet ||| SLIRP_POLL_IN else iRet
  let iRet := if iEvents &&& posix_POLLOUT ≠ 0 then iRet ||| SLIRP_POLL_OUT else iRet
  let iRet := if iEvents &&& posix_POLLPRI ≠ 0 then iRet ||| SLIRP_POLL_PRI else iRet
  let iRet := if iEvents &&& posix_POLLERR ≠ 0 then iRet ||| SLIRP_POLL_ERR else iRet
  let iRet := if iEvents &&& posix_POLLHUP ≠ 0 then iRet ||| SLIRP_POLL_HUP else iRet
  iRet

/-- drvNAT_PollEventHostToSlirp, the RT_OS_WINDOWS branch. -/
def drvNAT_PollEventHostToSlirp_win (iEvents : Nat) : Nat :=
  let iRet : Nat := 0
  let iRet := if iEvents &&& (win_POLLRDNORM ||| win_POLLRDBAND) ≠ 0 then iRet ||| SLIRP_POLL_IN else iRet
  let iRet := if iEvents &&& win_POLLWRNORM ≠ 0 then iRet ||| SLIRP_POLL_OUT else iRet
  let iRet := if iEvents &&& win_POLLPRI ≠ 0 then iRet ||| SLIRP_POLL_PRI else iRet
  let iRet := if iEvents &&& win_POLLERR ≠ 0 then iRet ||| SLIRP_POLL_ERR else iRet
  let iRet := if iEvents &&& win_POLLHUP ≠ 0 then iRet ||| SLIRP_POLL_HUP else iRet
  iRet

/-! ## Timer list (SlirpTimer)

Timers are linked through a next pointer starting at pNATState->pTimerHead.
Pointers are modelled as Nat addresses (0 = NULL); the allocated nodes live
in a heap, an association list from address to node payload. -/

/-- SlirpTimer node: next pointer and payload; pHandler/opaque are carried as
opaque Nat identifiers. -/
structure SlirpTimer where
  next : Nat
  uTimeExpire : Nat
  pHandler : Nat
  /-- the handler's argument (the C field name is a Lean keyword) -/
  opq : Nat
deriving DecidableEq, Repr

/-- Heap of allocated timer nodes, keyed by address. -/
abbrev TimerHeap := List (Nat × SlirpTimer)

/-- Dereference a timer pointer. -/
def heapLookup (h : TimerHeap) (a : Nat) : Option SlirpTimer :=
  (h.find? (fun e => e.1 = a)).map (fun e => e.2)

/-- RTMemFree of a timer node: the address no longer holds an allocation. -/
def heapRemove (h : TimerHeap) (a : Nat) : TimerHeap :=
  h.filter (fun e => e.1 ≠ a)

/-- The traversal loop of drvNAT_TimerFreeCb: walks the list from pCurrent;
when the node equals pTimer it reads the node's next pointer, frees the node
and continues from that next — without writing any next pointer or the list
head.  Fuel bounds the traversal; it exceeds the list length in every use
below. -/
def timerFreeLoop : Nat → TimerHeap → Nat → Nat → TimerHeap
  | 0, h, _, _ => h
  | Nat.succ fuel, h, pCurrent, pTimer =>
    if pCurrent = 0 then h
    else
      match heapLookup h pCurrent with
      | none => h
      | some t =>
        if pCurrent = pTimer then
          timerFreeLoop fuel (heapRemove h pCurrent) t.next pTimer
        else
          timerFreeLoop fuel h t.next pTimer

/-- The timer list as the driver sees it: head pointer plus heap. -/
structure TimerListSt where
  pTimerHead : Nat
  heap : TimerHeap
deriving DecidableEq, Repr

/-- drvNAT_TimerFreeCb: runs the traversal loop; pTimerHead is left
untouched (the function performs no store to the head or to any next
field). -/
def drvNAT_TimerFreeCb (fuel : Nat) (st : TimerListSt) (pTimer : Nat) :
    TimerListSt :=
  { pTimerHead := st.pTimerHead
    heap := timerFreeLoop fuel st.heap st.pTimerHead pTimer }

/-- Addresses of the nodes reachable from a pointer by following next
fields; none when the walk dereferences an address that holds no allocation
(a dangling pointer) or runs out of fuel. -/
def reachAddrs : Nat → TimerHeap → Nat → Option (List Nat)
  | 0, _, p => if p = 0 then some [] else none
  | Nat.succ fuel, h, p =>
    if p = 0 then some []
    else
      match heapLookup h p with
      | none => none
      | some t => (reachAddrs fuel h t.next).map (fun l => p :: l)

/-! ## drvNAT_UpdateTimeout -/

/-- 2^32, the modulus of uint32_t arithmetic. -/
def UINT32_MOD : Nat := 4294967296

/-- uint32_t subtraction a - b (wraps modulo 2^32). -/
def sub32 (a b : Nat) : Nat :=
  (a % UINT32_MOD + (UINT32_MOD - b % UINT32_MOD)) % UINT32_MOD

/-- The walk of drvNAT_UpdateTimeout over the uTimeExpire fields of the
timers on the list.  `int64_t diff = pCurrent->uTimeExpire - currTime` is a
uint32_t subtraction whose (always non-negative) result is widened to
int64_t, so the subsequent `if (diff < 0) diff = 0` can never fire; both are
reproduced faithfully.  The comparison `diff < *uTimeout` compares int64_t
against uint32_t, i.e. both as mathematical integers. -/
def drvNAT_UpdateTimeoutLoop : List Nat → Nat → Nat → Nat
  | [], _, uTimeout => uTimeout
  | e :: rest, currTime, uTimeout =>
    let uT :=
      if e ≠ 0 then
        let diff : Int := (sub32 e currTime : Nat)
        let diff := if diff < 0 then 0 else diff
        if diff < (uTimeout : Int) then diff.toNat else uTimeout
      else uTimeout
    drvNAT_UpdateTimeoutLoop rest currTime uT

/-- drvNAT_UpdateTimeout: currTime is the engine clock in nanoseconds divided
by 1e6 and truncated to uint32_t. -/
def drvNAT_UpdateTimeout (uTimeout : Nat) (clockNs : Nat)
    (expiries : List Nat) : Nat :=
  drvNAT_UpdateTimeoutLoop expiries (clockNs / (1000 * 1000) % UINT32_MOD)
    uTimeout

/-! ## drvNATRecvWorker and the in-flight packet counter -/

/-- Externally visible effects of one drvNATRecvWorker invocation, as a
function of the status the device port's pfnWaitReceiveAvail returned. -/
structure RecvWorkerEff where
  devLockEntered : Bool
  received : Bool
  freedBuf : Bool
  devLockLeft : Bool
  decrementedPkts : Bool
  notifiedNATThread : Bool
deriving DecidableEq, Repr

/-- drvNATRecvWorker: enters DevAccessLock, waits for receive availability,
on success delivers the packet and frees the buffer (RTMemFree only in the
success branch); in every case it leaves the lock, decrements cPkts and
pokes the wakeup channel. -/
def drvNATRecvWorker (waitRc : Int) : RecvWorkerEff :=
  { devLockEntered := true
    received := RT_SUCCESS waitRc
    freedBuf := RT_SUCCESS waitRc
    devLockLeft := true
    decrementedPkts := true
    notifiedNATThread := true }

/-- Joint state of the in-flight packet counter cPkts and the number of
receive-queue requests enqueued but not yet run. -/
structure PktState where
  cPkts : Nat
  cQueued : Nat
deriving DecidableEq, Repr

/-- The two operations that touch cPkts: the engine's send-to-guest callback
drvNAT_SendPacketCb (allocOk models the RTMemAlloc of the packet copy;
threadRunning the NAT thread state check; on either failure it returns -1
without touching cPkts) and one run of drvNATRecvWorker dequeued by the
receive thread. -/
inductive PktOp where
  | sendPacketCb (threadRunning : Bool) (allocOk : Bool)
  | recvWorkerRun (waitRc : Int)
deriving DecidableEq, Repr

/-- Effect of one operation on (cPkts, queued requests).  drvNAT_SendPacketCb
increments cPkts exactly once immediately before its successful enqueue of
drvNATRecvWorker; a worker run decrements exactly once (per
drvNATRecvWorker's unconditional ASMAtomicDecU32) and consumes one queued
request. -/
def pktStep (s : PktState) : PktOp → PktState
  | PktOp.sendPacketCb threadRunning allocOk =>
    if allocOk && threadRunning then
      { cPkts := s.cPkts + 1, cQueued := s.cQueued + 1 }
    else s
  | PktOp.recvWorkerRun waitRc =>
    if s.cQueued = 0 then s
    else
      { cPkts := if (drvNATRecvWorker waitRc).decrementedPkts then
                   s.cPkts - 1
                 else s.cPkts
        cQueued := s.cQueued - 1 }

/-- Run a sequence of packet operations from the constructed state
(cPkts = 0, empty receive queue). -/
def pktRun (ops : List PktOp) : PktState :=
  ops.foldl pktStep { cPkts := 0, cQueued := 0 }

/-! ## drvNATNetworkUp_AllocBuf -/

/-- The two GSO descriptor fields drvNATNetworkUp_AllocBuf reads. -/
structure PDMNETWORKGSO where
  cbHdrsTotal : Nat
  cbMaxSeg : Nat
deriving DecidableEq, Repr

/-- RT_ALIGN_Z(cb, uAlign) for a power-of-two alignment. -/
def RT_ALIGN_Z (cb uAlign : Nat) : Nat :=
  (cb + uAlign - 1) / uAlign * uAlign

/-- Result of drvNATNetworkUp_AllocBuf. -/
structure AllocBufResult where
  rc : Int
  buf : Option PDMSCATTERGATHER
deriving DecidableEq, Repr

/-- drvNATNetworkUp_AllocBuf.  hdrAllocOk, segAllocOk and gsoDupOk model the
outcomes of the RTMemAllocZ of the header, the RTMemAlloc of the segment and
the RTMemDup of the GSO descriptor. -/
def drvNATNetworkUp_AllocBuf (threadState : PDMTHREADSTATE) (cbMin : Nat)
    (pGso : Option PDMNETWORKGSO) (hdrAllocOk segAllocOk gsoDupOk : Bool) :
    AllocBufResult :=
  if threadState ≠ PDMTHREADSTATE.running then
    { rc := VERR_NET_DOWN, buf := none }
  else if !hdrAllocOk then
    { rc := VERR_NO_MEMORY, buf := none }
  else
    match pGso with
    | none =>
      if cbMin ≥ DRVNAT_MAXFRAMESIZE then
        { rc := VERR_INVALID_PARAMETER, buf := none }
      else if !segAllocOk then
        { rc := VERR_TRY_AGAIN, buf := none }
      else
        { rc := VINF_SUCCESS
          buf := some
            { fFlags := PDMSCATTERGATHER_FLAGS_MAGIC
                          ||| PDMSCATTERGATHER_FLAGS_OWNER_1
              cbUsed := 0
              cbAvailable := RT_ALIGN_Z cbMin 128
              cSegs := 1
              cbSeg := RT_ALIGN_Z cbMin 128
              pvSegValid := true
              pvAllocator := true
              pvUser := false } }
    | some gso =>
      if gso.cbHdrsTotal + gso.cbMaxSeg ≥ DRVNAT_MAXFRAMESIZE then
        { rc := VERR_INVALID_PARAMETER, buf := none }
      else if !gsoDupOk || !segAllocOk then
        { rc := VERR_TRY_AGAIN, buf := none }
      else
        { rc := VINF_SUCCESS
          buf := some
            { fFlags := PDMSCATTERGATHER_FLAGS_MAGIC
                          ||| PDMSCATTERGATHER_FLAGS_OWNER_1
              cbUsed := 0
              cbAvailable := RT_ALIGN_Z cbMin 128
              cSegs := 1
              cbSeg := RT_ALIGN_Z cbMin 128
              pvSegValid := true
              pvAllocator := false
              pvUser := true } }

/-! ## Wakeup channel accounting (drvNATNotifyNATThread / poll-round drain) -/

/-- Wakeup-channel state: bytes sitting in the channel, the counter
cbWakeupNotifs, and ghost totals of bytes successfully written and bytes
drained. -/
structure WakeSt where
  pipeBytes : Nat
  cbWakeupNotifs : Nat
  totalWritten : Nat
  totalDrained : Nat
deriving DecidableEq, Repr

/-- The two operations touching the wakeup channel: drvNATNotifyNATThread
(writeOk models the RTPipeWrite / send outcome) and one poll round of
drvNATAsyncIoThread (indexZeroReadable: whether polls[0].revents signalled
ingress). -/
inductive WakeEv where
  | notifyThread (writeOk : Bool)
  | pollRound (indexZeroReadable : Bool)
deriving DecidableEq, Repr

/-- drvNATNotifyNATThread writes one byte and, only on success, increments
cbWakeupNotifs; a poll round with index 0 readable snapshots cbWakeupNotifs,
reads min(snapshot, 1024) bytes — the pipe read returns at most what the
channel holds — and subtracts the count actually read. -/
def wakeStep (s : WakeSt) : WakeEv → WakeSt
  | WakeEv.notifyThread writeOk =>
    if writeOk then
      { pipeBytes := s.pipeBytes + 1
        cbWakeupNotifs := s.cbWakeupNotifs + 1
        totalWritten := s.totalWritten + 1
        totalDrained := s.totalDrained }
    else s
  | WakeEv.pollRound indexZeroReadable =>
    if indexZeroReadable then
      let snapshot := s.cbWakeupNotifs
      let cbRead := min (min snapshot 1024) s.pipeBytes
      { pipeBytes := s.pipeBytes - cbRead
        cbWakeupNotifs := s.cbWakeupNotifs - cbRead
        totalWritten := s.totalWritten
        totalDrained := s.totalDrained + cbRead }
    else s

/-- Initial wakeup-channel state (cbWakeupNotifs is set to 0 by
drvNATConstruct, the fresh channel holds no bytes). -/
def wakeInit : WakeSt :=
  { pipeBytes := 0, cbWakeupNotifs := 0, totalWritten := 0, totalDrained := 0 }

/-- Run a sequence of wakeup-channel events from the constructed state. -/
def wakeRun (evs : List WakeEv) : WakeSt :=
  evs.foldl wakeStep wakeInit

/-! ## Address derivation in drvNATConstruct -/

/-- RT_BYTE2: bits 8..15 of a 32-bit value. -/
def RT_BYTE2 (u : Nat) : Nat := u / 256 % 256

/-- RT_BYTE3: bits 16..23 of a 32-bit value. -/
def RT_BYTE3 (u : Nat) : Nat := u / 65536 % 256

/-- 32-bit byte swap. -/
def bswap32 (u : Nat) : Nat :=
  u % 256 * 16777216 + u / 256 % 256 * 65536 + u / 65536 % 256 * 256
    + u / 16777216 % 256

/-- RTNetIPv4AddrHEToInAddr on a little-endian host: in_addr.s_addr holds the
network-byte-order encoding, i.e. the byte-swapped host-endian value. -/
def RTNetIPv4AddrHEToInAddr (u : Nat) : Nat := bswap32 (u % UINT32_MOD)

/-- The addresses drvNATConstruct stores into the engine configuration. -/
structure SlirpConfigAddrs where
  vhost : Nat
  vdhcp_start : Nat
  vnameserver : Nat
  vprefix_len : Nat
  vprefix_addr6 : List Nat
  vhost6 : List Nat
  vnameserver6 : List Nat
deriving DecidableEq, Repr

/-- inet_pton(AF_INET6, "fd17:625c:f037:0::") — libc on the fixed literal. -/
def vprefixAddr6Base : List Nat :=
  [0xfd, 0x17, 0x62, 0x5c, 0xf0, 0x37, 0, 0, 0, 0, 0, 0, 0, 0, 0, 0]

/-- inet_pton(AF_INET6, "fd17:625c:f037:0::2"). -/
def vhost6Base : List Nat :=
  [0xfd, 0x17, 0x62, 0x5c, 0xf0, 0x37, 0, 0, 0, 0, 0, 0, 0, 0, 0, 2]

/-- inet_pton(AF_INET6, "fd17:625c:f037:0::3"). -/
def vnameserver6Base : List Nat :=
  [0xfd, 0x17, 0x62, 0x5c, 0xf0, 0x37, 0, 0, 0, 0, 0, 0, 0, 0, 0, 3]

/-- The address-derivation part of drvNATConstruct, from the host-endian
IPv4 network address parsed out of the "Network" CIDR: ORs in the host,
DHCP-start and nameserver host parts, converts to in_addr, fills the fixed
ULA IPv6 addresses, and then overwrites bytes 6 and 7 of the IPv6 prefix,
host and nameserver with RT_BYTE2/RT_BYTE3 of the corresponding in_addr. -/
def drvNATConstructAddrs (network : Nat) : SlirpConfigAddrs :=
  let vhostIn := RTNetIPv4AddrHEToInAddr (network ||| 2)
  let vdhcpIn := RTNetIPv4AddrHEToInAddr (network ||| 15)
  let vnsIn := RTNetIPv4AddrHEToInAddr (network ||| 3)
  { vhost := vhostIn
    vdhcp_start := vdhcpIn
    vnameserver := vnsIn
    vprefix_len := 64
    vprefix_addr6 :=
      (vprefixAddr6Base.set 6 (RT_BYTE2 vhostIn)).set 7 (RT_BYTE3 vhostIn)
    vhost6 := (vhost6Base.set 6 (RT_BYTE2 vhostIn)).set 7 (RT_BYTE3 vhostIn)
    vnameserver6 :=
      (vnameserver6Base.set 6 (RT_BYTE2 vnsIn)).set 7 (RT_BYTE3 vnsIn) }

/-! ## The GuestIP instance field -/

/-- The mutable scalar instance fields of DRVNAT that the modelled
operations write. -/
structure DrvNatSt where
  GuestIP : Nat
  enmLinkState : PDMNETWORKLINKSTATE
  enmLinkStateWant : PDMNETWORKLINKSTATE
  cPkts : Nat
  cbWakeupNotifs : Nat
deriving DecidableEq, Repr

/-- Instance state after drvNATConstruct: PDM hands the constructor
zero-initialized instance data; the constructor sets the link-state fields
to UP and cbWakeupNotifs to 0 and never assigns GuestIP (the GuestIP
identifier inside drvNATConstructRedir is a local struct in_addr, not the
instance field). -/
def drvNATConstructState : DrvNatSt :=
  { GuestIP := 0
    enmLinkState := PDMNETWORKLINKSTATE.up
    enmLinkStateWant := PDMNETWORKLINKSTATE.up
    cPkts := 0
    cbWakeupNotifs := 0 }

/-- The driver operations that write instance state after construction. -/
inductive DrvOp where
  | notifyLinkChangedWorker (st : PDMNETWORKLINKSTATE)
  | notifyLinkChangedDeferred (st : PDMNETWORKLINKSTATE)
  | sendPacketCbEnqueue
  | recvWorkerDone
  | notifyNATThreadOk
  | pollRoundDrain (cbRead : Nat)
  | applyPortForward (fRemove fUdp : Bool)
      (hostIpParsed guestIpParsed : Option Nat)
deriving DecidableEq, Repr

/-- Field effects of each operation (drvNATNotifyLinkChangedWorker writes
both link-state fields, drvNATNetworkUp_NotifyLinkChanged stores only the
desired state when the NAT thread is not RUNNING, drvNAT_SendPacketCb
increments cPkts, drvNATRecvWorker decrements it, drvNATNotifyNATThread
increments cbWakeupNotifs, the poll round subtracts the drained count, and
drvNATNotifyApplyPortForwardCommand only reads instance state). -/
def drvStep (s : DrvNatSt) : DrvOp → DrvNatSt
  | DrvOp.notifyLinkChangedWorker st =>
    { s with enmLinkState := st, enmLinkStateWant := st }
  | DrvOp.notifyLinkChangedDeferred st => { s with enmLinkStateWant := st }
  | DrvOp.sendPacketCbEnqueue => { s with cPkts := s.cPkts + 1 }
  | DrvOp.recvWorkerDone => { s with cPkts := s.cPkts - 1 }
  | DrvOp.notifyNATThreadOk =>
    { s with cbWakeupNotifs := s.cbWakeupNotifs + 1 }
  | DrvOp.pollRoundDrain cbRead =>
    { s with cbWakeupNotifs := s.cbWakeupNotifs - cbRead }
  | DrvOp.applyPortForward _ _ _ _ => s

/-- Run a sequence of driver operations from the constructed state. -/
def drvRun (ops : List DrvOp) : DrvNatSt :=
  ops.foldl drvStep drvNATConstructState

/-- INADDR_ANY. -/
def INADDR_ANY : Nat := 0

/-- The guest address drvNATNotifyApplyPortForwardCommand hands to the
engine's slirp_add_hostfwd: none models a NULL pGuestIp string, some none a
string inet_aton rejects, some (some ip) a string parsing to ip; on NULL or
parse failure the instance's GuestIP field is used. -/
def portForwardGuestAddr (s : DrvNatSt)
    (pGuestIpParsed : Option (Option Nat)) : Nat :=
  match pGuestIpParsed with
  | none => s.GuestIP
  | some none => s.GuestIP
  | some (some ip) => ip

end DrvNATlibslirp

namespace DrvNATlibslirp

/-- Claim C7: for every engine poll-flag value built from
{IN, OUT, PRI, ERR, HUP}, translating engine flags to host flags and back is
the identity on POSIX-style hosts; on Windows-style hosts it keeps the IN and
OUT components, additionally turns a PRI component into IN, and drops the ERR
and HUP components. -/
theorem pollEvent_roundtrip (e : Fin 32) :
    drvNAT_PollEventHostToSlirp_posix (drvNAT_PollEventSlirpToHost_posix e.val) = e.val
    ∧ drvNAT_PollEventHostToSlirp_win (drvNAT_PollEventSlirpToHost_win e.val)
        = (e.val &&& (SLIRP_POLL_IN ||| SLIRP_POLL_OUT))
          ||| (if e.val &&& SLIRP_POLL_PRI ≠ 0 then SLIRP_POLL_IN else 0) := by
  revert e
  decide

/-- Claim C1, counterexample: with the link DOWN but the NAT thread RUNNING
and the engine queue accepting, drvNATNetworkUp_SendBuf returns VINF_SUCCESS,
not VERR_NET_DOWN — the send operation never consults the link state. -/
theorem sendBuf_linkDown_counterexample :
    (drvNATNetworkUp_SendBuf PDMTHREADSTATE.running PDMNETWORKLINKSTATE.down
        true sgBufSample).rc = VINF_SUCCESS
    ∧ VINF_SUCCESS ≠ VERR_NET_DOWN := by
  constructor
  · rfl
  · decide

/-- Claim C1, amended: drvNATNetworkUp_SendBuf fails with VERR_NET_DOWN if the
NAT thread is not in the RUNNING state (not: if the link is not UP), fails
with VERR_NET_NO_BUFFER_SPACE if the engine queue refuses the request, and on
every failure path releases the buffer's segment memory — and its GSO copy
when present — exactly once before returning; on success it enqueues
drvNATSendWorker, pokes the wakeup channel and performs no free itself, the
enqueued drvNATSendWorker releasing the buffer exactly once regardless of
link state or GSO path. -/
theorem sendBuf_amended (threadState : PDMTHREADSTATE)
    (enmLinkState : PDMNETWORKLINKSTATE) (queueAccepts : Bool)
    (pSgBuf : PDMSCATTERGATHER) (gsoValid : Bool) (cSegs : Nat)
    (hconv : pSgBuf.pvAllocator = true ∧ pSgBuf.pvUser = false
             ∨ pSgBuf.pvAllocator = false ∧ pSgBuf.pvUser = true) :
    (threadState ≠ PDMTHREADSTATE.running →
      (drvNATNetworkUp_SendBuf threadState enmLinkState queueAccepts pSgBuf).rc
          = VERR_NET_DOWN
      ∧ countFreeSeg (drvNATNetworkUp_SendBuf threadState enmLinkState
            queueAccepts pSgBuf).events = 1
      ∧ countFreeGso (drvNATNetworkUp_SendBuf threadState enmLinkState
            queueAccepts pSgBuf).events = (if pSgBuf.pvUser then 1 else 0))
    ∧ (threadState = PDMTHREADSTATE.running → queueAccepts = false →
      (drvNATNetworkUp_SendBuf threadState enmLinkState queueAccepts pSgBuf).rc
          = VERR_NET_NO_BUFFER_SPACE
      ∧ countFreeSeg (drvNATNetworkUp_SendBuf threadState enmLinkState
            queueAccepts pSgBuf).events = 1
      ∧ countFreeGso (drvNATNetworkUp_SendBuf threadState enmLinkState
            queueAccepts pSgBuf).events = (if pSgBuf.pvUser then 1 else 0))
    ∧ (threadState = PDMTHREADSTATE.running → queueAccepts = true →
      (drvNATNetworkUp_SendBuf threadState enmLinkState queueAccepts pSgBuf).events
          = [SendEv.enqueueSendWorker, SendEv.notifyNATThread]
      ∧ (drvNATNetworkUp_SendBuf threadState enmLinkState queueAccepts pSgBuf).rc
          = VINF_SUCCESS
      ∧ (drvNATSendWorker enmLinkState pSgBuf gsoValid cSegs).frees.count
            FreeEv.freeSeg = 1
      ∧ (drvNATSendWorker enmLinkState pSgBuf gsoValid cSegs).frees.count
            FreeEv.freeGsoCopy = (if pSgBuf.pvUser then 1 else 0)) := by
  obtain ⟨ha, hu⟩ | ⟨ha, hu⟩ := hconv <;>
    cases threadState <;> cases queueAccepts <;> cases enmLinkState <;>
      cases gsoValid <;>
        simp [drvNATNetworkUp_SendBuf, drvNATSendWorker, drvNATFreeSgBuf,
              countFreeSeg, countFreeGso, ha, hu, VINF_SUCCESS, VERR_NET_DOWN,
              VERR_NET_NO_BUFFER_SPACE, List.count_cons, List.count_nil]

/-- Claim C1, witness for the amended theorem: concrete evaluation with the
NAT thread TERMINATING and an ordinary frame buffer. -/
theorem sendBuf_amended_witness :
    (drvNATNetworkUp_SendBuf PDMTHREADSTATE.terminating PDMNETWORKLINKSTATE.up
        true sgBufSample).rc = VERR_NET_DOWN
    ∧ countFreeSeg (drvNATNetworkUp_SendBuf PDMTHREADSTATE.terminating
          PDMNETWORKLINKSTATE.up true sgBufSample).events = 1
    ∧ countFreeGso (drvNATNetworkUp_SendBuf PDMTHREADSTATE.terminating
          PDMNETWORKLINKSTATE.up true sgBufSample).events
        = (if sgBufSample.pvUser then 1 else 0) :=
  (sendBuf_amended PDMTHREADSTATE.terminating PDMNETWORKLINKSTATE.up true
      sgBufSample false 0 (Or.inl ⟨rfl, rfl⟩)).1 (by decide)

/-- Claim C2, code evaluation at the failing input: on the well-formed
two-node timer list 1 → 2 with pTimer = node 2, drvNAT_TimerFreeCb
deallocates node 2 but writes neither pTimerHead nor node 1's next pointer,
so the list reachable from pTimerHead afterwards dereferences the freed
address 2 (dangling) instead of being exactly the remaining list [1]. -/
theorem timerFree_leaves_dangling :
    drvNAT_TimerFreeCb 8
        { pTimerHead := 1
          heap := [(1, ⟨2, 0, 5, 6⟩), (2, ⟨0, 0, 5, 7⟩)] } 2
      = { pTimerHead := 1, heap := [(1, ⟨2, 0, 5, 6⟩)] }
    ∧ reachAddrs 8 [(1, ⟨2, 0, 5, 6⟩), (2, ⟨0, 0, 5, 7⟩)] 1 = some [1, 2]
    ∧ reachAddrs 8 [(1, ⟨2, 0, 5, 6⟩)] 1 = none := by
  decide

/-- Claim C3, code evaluation at the failing input: with the engine clock at
200 ms and a single armed timer whose expiry 100 ms is already in the past,
drvNAT_UpdateTimeout leaves the 3 600 000 ms default timeout in place instead
of clamping it to 0 — the uint32_t subtraction uTimeExpire - currTime wraps
to 2^32 - 100, so the dead `diff < 0` clamp never fires; a timer 50 ms in the
future is clamped correctly. -/
theorem updateTimeout_expired_timer_not_clamped :
    drvNAT_UpdateTimeout DRVNAT_DEFAULT_TIMEOUT (200 * 1000 * 1000) [100]
      = DRVNAT_DEFAULT_TIMEOUT
    ∧ DRVNAT_DEFAULT_TIMEOUT ≠ 0
    ∧ drvNAT_UpdateTimeout DRVNAT_DEFAULT_TIMEOUT (200 * 1000 * 1000) [250]
      = 50 := by
  refine ⟨by decide, by decide, by decide⟩

/-- Claim C4, code evaluation at the failing inputs: drvNATRecvWorker frees
the packet buffer only when pfnWaitReceiveAvail succeeds; on VERR_TIMEOUT
and VERR_INTERRUPTED it still leaves the device-access lock, decrements
cPkts and pokes the wakeup channel, but the RTMemFree of the buffer is
skipped (the buffer leaks). -/
theorem recvWorker_transient_failure_skips_free :
    (drvNATRecvWorker VINF_SUCCESS).freedBuf = true
    ∧ (drvNATRecvWorker VERR_TIMEOUT).freedBuf = false
    ∧ (drvNATRecvWorker VERR_INTERRUPTED).freedBuf = false
    ∧ (drvNATRecvWorker VERR_TIMEOUT).devLockLeft = true
    ∧ (drvNATRecvWorker VERR_TIMEOUT).decrementedPkts = true
    ∧ (drvNATRecvWorker VERR_TIMEOUT).notifiedNATThread = true
    ∧ (drvNATRecvWorker VERR_INTERRUPTED).devLockLeft = true
    ∧ (drvNATRecvWorker VERR_INTERRUPTED).decrementedPkts = true
    ∧ (drvNATRecvWorker VERR_INTERRUPTED).notifiedNATThread = true := by
  decide

/-- Helper: every state with cPkts = cQueued keeps that equality under any
sequence of packet operations. -/
theorem pktFoldl_invariant (ops : List PktOp) (s : PktState)
    (h : s.cPkts = s.cQueued) :
    (ops.foldl pktStep s).cPkts = (ops.foldl pktStep s).cQueued := by
  induction ops generalizing s with
  | nil => exact h
  | cons op rest ih =>
    refine ih (pktStep s op) ?_
    cases op with
    | sendPacketCb threadRunning allocOk =>
      cases threadRunning <;> cases allocOk <;> simp [pktStep, h]
    | recvWorkerRun waitRc =>
      by_cases hq : s.cQueued = 0 <;>
        simp [pktStep, hq, drvNATRecvWorker, h]

/-- Claim C5: starting from the constructed state, cPkts always equals the
number of enqueued-but-not-yet-run receive workers — drvNAT_SendPacketCb
increments it exactly once per successful delivery enqueue and each
drvNATRecvWorker run decrements it exactly once — and therefore cPkts is 0
whenever the receive queue has been drained. -/
theorem cPkts_balance (ops : List PktOp) :
    (pktRun ops).cPkts = (pktRun ops).cQueued
    ∧ ((pktRun ops).cQueued = 0 → (pktRun ops).cPkts = 0) := by
  have h := pktFoldl_invariant ops { cPkts := 0, cQueued := 0 } rfl
  exact ⟨h, fun h0 => by rw [pktRun] at *; omega⟩

/-- Claim C5, witness: one successful delivery enqueue followed by one worker
run drains the queue and returns cPkts to 0. -/
theorem cPkts_balance_witness :
    (pktRun [PktOp.sendPacketCb true true,
             PktOp.recvWorkerRun VINF_SUCCESS]).cPkts = 0 :=
  (cPkts_balance [PktOp.sendPacketCb true true,
                  PktOp.recvWorkerRun VINF_SUCCESS]).2 (by decide)

/-- Claim C6, counterexample: a GSO allocation with cbMin = 16384 (≥ 16 KiB)
succeeds — in the GSO case drvNATNetworkUp_AllocBuf checks
cbHdrsTotal + cbMaxSeg against the limit, not the requested minimum size —
so the claimed INVALID_PARAMETER refusal does not happen. -/
theorem allocBuf_gso_oversize_counterexample :
    (drvNATNetworkUp_AllocBuf PDMTHREADSTATE.running 16384
        (some { cbHdrsTotal := 54, cbMaxSeg := 1400 }) true true true).rc
      = VINF_SUCCESS
    ∧ VINF_SUCCESS ≠ VERR_INVALID_PARAMETER := by
  decide

/-- Claim C6, amended: while holding the transmit lock,
drvNATNetworkUp_AllocBuf returns VERR_NET_DOWN if the NAT thread is not
running; it returns VERR_INVALID_PARAMETER with nothing retained when, in
the ordinary case, the requested minimum size is ≥ 16 KiB, or, in the GSO
case, cbHdrsTotal + cbMaxSeg is ≥ 16 KiB; otherwise (allocations
succeeding) it returns a buffer with exactly one segment of size
round_up(cbMin, 128), cbUsed = 0, cbAvailable equal to the segment size, and
the magic and owner flags set. -/
theorem allocBuf_amended (threadState : PDMTHREADSTATE) (cbMin : Nat)
    (pGso : Option PDMNETWORKGSO) (hdrAllocOk segAllocOk gsoDupOk : Bool) :
    (threadState ≠ PDMTHREADSTATE.running →
      drvNATNetworkUp_AllocBuf threadState cbMin pGso hdrAllocOk segAllocOk
          gsoDupOk = { rc := VERR_NET_DOWN, buf := none })
    ∧ (threadState = PDMTHREADSTATE.running → hdrAllocOk = true →
       pGso = none → cbMin ≥ DRVNAT_MAXFRAMESIZE →
      drvNATNetworkUp_AllocBuf threadState cbMin pGso hdrAllocOk segAllocOk
          gsoDupOk = { rc := VERR_INVALID_PARAMETER, buf := none })
    ∧ (∀ gso : PDMNETWORKGSO, threadState = PDMTHREADSTATE.running →
       hdrAllocOk = true → pGso = some gso →
       gso.cbHdrsTotal + gso.cbMaxSeg ≥ DRVNAT_MAXFRAMESIZE →
      drvNATNetworkUp_AllocBuf threadState cbMin pGso hdrAllocOk segAllocOk
          gsoDupOk = { rc := VERR_INVALID_PARAMETER, buf := none })
    ∧ (threadState = PDMTHREADSTATE.running → hdrAllocOk = true →
       segAllocOk = true → pGso = none → cbMin < DRVNAT_MAXFRAMESIZE →
      (drvNATNetworkUp_AllocBuf threadState cbMin pGso hdrAllocOk segAllocOk
          gsoDupOk).rc = VINF_SUCCESS
      ∧ ∃ b : PDMSCATTERGATHER,
          (drvNATNetworkUp_AllocBuf threadState cbMin pGso hdrAllocOk
              segAllocOk gsoDupOk).buf = some b
          ∧ b.cSegs = 1 ∧ b.cbSeg = RT_ALIGN_Z cbMin 128 ∧ b.cbUsed = 0
          ∧ b.cbAvailable = b.cbSeg
          ∧ b.fFlags = PDMSCATTERGATHER_FLAGS_MAGIC
                         ||| PDMSCATTERGATHER_FLAGS_OWNER_1)
    ∧ (∀ gso : PDMNETWORKGSO, threadState = PDMTHREADSTATE.running →
       hdrAllocOk = true → segAllocOk = true → gsoDupOk = true →
       pGso = some gso → gso.cbHdrsTotal + gso.cbMaxSeg < DRVNAT_MAXFRAMESIZE →
      (drvNATNetworkUp_AllocBuf threadState cbMin pGso hdrAllocOk segAllocOk
          gsoDupOk).rc = VINF_SUCCESS
      ∧ ∃ b : PDMSCATTERGATHER,
          (drvNATNetworkUp_AllocBuf threadState cbMin pGso hdrAllocOk
              segAllocOk gsoDupOk).buf = some b
          ∧ b.cSegs = 1 ∧ b.cbSeg = RT_ALIGN_Z cbMin 128 ∧ b.cbUsed = 0
          ∧ b.cbAvailable = b.cbSeg
          ∧ b.fFlags = PDMSCATTERGATHER_FLAGS_MAGIC
                         ||| PDMSCATTERGATHER_FLAGS_OWNER_1) := by
  refine ⟨?_, ?_, ?_, ?_, ?_⟩
  · intro hts
    simp [drvNATNetworkUp_AllocBuf, hts]
  · intro hts hh hg hsz
    subst hts hg
    simp [drvNATNetworkUp_AllocBuf, hh, Nat.not_lt.mpr hsz, hsz]
  · intro gso hts hh hg hsz
    subst hts hg
    simp [drvNATNetworkUp_AllocBuf, hh, Nat.not_lt.mpr hsz, hsz]
  · intro hts hh hs hg hsz
    subst hts hg
    have hres : drvNATNetworkUp_AllocBuf PDMTHREADSTATE.running cbMin none
        hdrAllocOk segAllocOk gsoDupOk
        = { rc := VINF_SUCCESS
            buf := some
              { fFlags := PDMSCATTERGATHER_FLAGS_MAGIC
                            ||| PDMSCATTERGATHER_FLAGS_OWNER_1
                cbUsed := 0
                cbAvailable := RT_ALIGN_Z cbMin 128
                cSegs := 1
                cbSeg := RT_ALIGN_Z cbMin 128
                pvSegValid := true
                pvAllocator := true
                pvUser := false } } := by
      simp [drvNATNetworkUp_AllocBuf, hh, hs, Nat.not_le.mpr hsz]
    rw [hres]
    exact ⟨rfl, _, rfl, rfl, rfl, rfl, rfl, rfl⟩
  · intro gso hts hh hs hd hg hsz
    subst hts hg
    have hres : drvNATNetworkUp_AllocBuf PDMTHREADSTATE.running cbMin
        (some gso) hdrAllocOk segAllocOk gsoDupOk
        = { rc := VINF_SUCCESS
            buf := some
              { fFlags := PDMSCATTERGATHER_FLAGS_MAGIC
                            ||| PDMSCATTERGATHER_FLAGS_OWNER_1
                cbUsed := 0
                cbAvailable := RT_ALIGN_Z cbMin 128
                cSegs := 1
                cbSeg := RT_ALIGN_Z cbMin 128
                pvSegValid := true
                pvAllocator := false
                pvUser := true } } := by
      simp [drvNATNetworkUp_AllocBuf, hh, hs, hd, Nat.not_le.mpr hsz]
    rw [hres]
    exact ⟨rfl, _, rfl, rfl, rfl, rfl, rfl, rfl⟩

/-- Claim C6, witness for the amended theorem: concrete evaluations — NAT
thread not running refuses with VERR_NET_DOWN, an over-sized ordinary
request is refused with VERR_INVALID_PARAMETER, and an ordinary 60-byte
request yields a 128-byte single-segment buffer. -/
theorem allocBuf_amended_witness :
    drvNATNetworkUp_AllocBuf PDMTHREADSTATE.terminating 60 none true true
        true = { rc := VERR_NET_DOWN, buf := none }
    ∧ drvNATNetworkUp_AllocBuf PDMTHREADSTATE.running 20000 none true true
        true = { rc := VERR_INVALID_PARAMETER, buf := none }
    ∧ (drvNATNetworkUp_AllocBuf PDMTHREADSTATE.running 60 none true true
        true).rc = VINF_SUCCESS :=
  ⟨(allocBuf_amended PDMTHREADSTATE.terminating 60 none true true
      true).1 (by decide),
   (allocBuf_amended PDMTHREADSTATE.running 20000 none true true
      true).2.1 rfl rfl rfl (by decide),
   ((allocBuf_amended PDMTHREADSTATE.running 60 none true true
      true).2.2.2.1 rfl rfl rfl rfl (by decide)).1⟩

/-- Helper: one wakeup-channel event preserves the accounting invariant
(counter = written - drained, drained ≤ written, channel bytes = counter). -/
theorem wakeStep_invariant (s : WakeSt) (ev : WakeEv)
    (h1 : s.cbWakeupNotifs = s.totalWritten - s.totalDrained)
    (h2 : s.totalDrained ≤ s.totalWritten)
    (h3 : s.pipeBytes = s.cbWakeupNotifs) :
    (wakeStep s ev).cbWakeupNotifs
        = (wakeStep s ev).totalWritten - (wakeStep s ev).totalDrained
    ∧ (wakeStep s ev).totalDrained ≤ (wakeStep s ev).totalWritten
    ∧ (wakeStep s ev).pipeBytes = (wakeStep s ev).cbWakeupNotifs := by
  cases ev with
  | notifyThread writeOk =>
    cases writeOk <;> simp [wakeStep] <;> omega
  | pollRound indexZeroReadable =>
    cases indexZeroReadable <;> simp [wakeStep] <;> omega

/-- Helper: the wakeup-channel invariant holds along any event sequence. -/
theorem wakeFoldl_invariant (evs : List WakeEv) (s : WakeSt)
    (h1 : s.cbWakeupNotifs = s.totalWritten - s.totalDrained)
    (h2 : s.totalDrained ≤ s.totalWritten)
    (h3 : s.pipeBytes = s.cbWakeupNotifs) :
    (evs.foldl wakeStep s).cbWakeupNotifs
        = (evs.foldl wakeStep s).totalWritten
            - (evs.foldl wakeStep s).totalDrained
    ∧ (evs.foldl wakeStep s).totalDrained
        ≤ (evs.foldl wakeStep s).totalWritten
    ∧ (evs.foldl wakeStep s).pipeBytes
        = (evs.foldl wakeStep s).cbWakeupNotifs := by
  induction evs generalizing s with
  | nil => exact ⟨h1, h2, h3⟩
  | cons ev rest ih =>
    obtain ⟨g1, g2, g3⟩ := wakeStep_invariant s ev h1 h2 h3
    exact ih (wakeStep s ev) g1 g2 g3

/-- Claim C8: along any sequence of notifies and poll rounds from the
constructed state, cbWakeupNotifs equals the number of bytes successfully
written to the wakeup channel minus the number drained — each successful
drvNATNotifyNATThread writes one byte and increments the counter by one —
and a poll round in which index 0 signals readable drains exactly
min(cbWakeupNotifs, 1024) bytes, subtracting the count actually read. -/
theorem cbWakeupNotifs_accounting (evs : List WakeEv) :
    (wakeRun evs).cbWakeupNotifs
        = (wakeRun evs).totalWritten - (wakeRun evs).totalDrained
    ∧ (wakeRun evs).totalDrained ≤ (wakeRun evs).totalWritten
    ∧ (wakeStep (wakeRun evs) (WakeEv.pollRound true)).totalDrained
        = (wakeRun evs).totalDrained
            + min (wakeRun evs).cbWakeupNotifs 1024 := by
  obtain ⟨h1, h2, h3⟩ :=
    wakeFoldl_invariant evs wakeInit rfl (Nat.le_refl 0) rfl
  unfold wakeRun
  refine ⟨h1, h2, ?_⟩
  simp [wakeStep]
  omega

/-- Helper: byte 1 (bits 8..15) of a byte-swapped 32-bit value is byte 2 of
the original value. -/
theorem RT_BYTE2_bswap32 (v : Nat) :
    RT_BYTE2 (bswap32 v) = v / 65536 % 256 := by
  have hd : v / 16777216 % 256 < 256 := Nat.mod_lt _ (by norm_num)
  unfold RT_BYTE2 bswap32
  rw [show v % 256 * 16777216 + v / 256 % 256 * 65536 + v / 65536 % 256 * 256
        + v / 16777216 % 256
      = 256 * (v % 256 * 65536 + v / 256 % 256 * 256 + v / 65536 % 256)
        + v / 16777216 % 256 by ring]
  rw [Nat.mul_add_div (by norm_num), Nat.div_eq_of_lt hd]
  omega

/-- Helper: byte 2 (bits 16..23) of a byte-swapped 32-bit value is byte 1 of
the original value. -/
theorem RT_BYTE3_bswap32 (v : Nat) :
    RT_BYTE3 (bswap32 v) = v / 256 % 256 := by
  have hc : v / 65536 % 256 < 256 := Nat.mod_lt _ (by norm_num)
  have hd : v / 16777216 % 256 < 256 := Nat.mod_lt _ (by norm_num)
  unfold RT_BYTE3 bswap32
  rw [show v % 256 * 16777216 + v / 256 % 256 * 65536 + v / 65536 % 256 * 256
        + v / 16777216 % 256
      = 65536 * (v % 256 * 256 + v / 256 % 256)
        + (v / 65536 % 256 * 256 + v / 16777216 % 256) by ring]
  rw [Nat.mul_add_div (by norm_num),
      Nat.div_eq_of_lt (show v / 65536 % 256 * 256 + v / 16777216 % 256
          < 65536 by omega)]
  omega

/-- Claim C9, counterexample: for the canonical Network 10.0.2.0/24
(host-endian 0x0A000200), drvNATConstruct overwrites bytes 6–7 of the IPv6
prefix too, yielding fd17:625c:f037:2::/64 — not the fixed
fd17:625c:f037:0::/64 the claim states. -/
theorem constructAddrs_prefix_counterexample :
    (drvNATConstructAddrs 0x0A000200).vprefix_addr6 ≠ vprefixAddr6Base
    ∧ (drvNATConstructAddrs 0x0A000200).vprefix_addr6
        = [0xfd, 0x17, 0x62, 0x5c, 0xf0, 0x37, 0, 2,
           0, 0, 0, 0, 0, 0, 0, 0] := by
  decide

/-- Claim C9, amended: for every valid network address, vhost = Network | 2,
vdhcp_start = Network | 15, vnameserver = Network | 3 (converted to network
byte order), the IPv6 prefix is fd17:625c:f037:0::/64 with its bytes 6–7
likewise overwritten by bytes 2–3 of the IPv4 vhost (the ULA subnet ID), and
bytes 6–7 of the IPv6 host and nameserver addresses equal bytes 2–3 of the
corresponding IPv4 address (vhost and vnameserver respectively). -/
theorem constructAddrs_amended (network : Nat) (h : network < UINT32_MOD) :
    (drvNATConstructAddrs network).vhost
        = RTNetIPv4AddrHEToInAddr (network ||| 2)
    ∧ (drvNATConstructAddrs network).vdhcp_start
        = RTNetIPv4AddrHEToInAddr (network ||| 15)
    ∧ (drvNATConstructAddrs network).vnameserver
        = RTNetIPv4AddrHEToInAddr (network ||| 3)
    ∧ (drvNATConstructAddrs network).vprefix_len = 64
    ∧ (drvNATConstructAddrs network).vprefix_addr6
        = (vprefixAddr6Base.set 6 ((network ||| 2) / 65536 % 256)).set 7
            ((network ||| 2) / 256 % 256)
    ∧ (drvNATConstructAddrs network).vhost6
        = (vhost6Base.set 6 ((network ||| 2) / 65536 % 256)).set 7
            ((network ||| 2) / 256 % 256)
    ∧ (drvNATConstructAddrs network).vnameserver6
        = (vnameserver6Base.set 6 ((network ||| 3) / 65536 % 256)).set 7
            ((network ||| 3) / 256 % 256) := by
  have hpow : UINT32_MOD = 2 ^ 32 := by norm_num [UINT32_MOD]
  have hb2 : network ||| 2 < UINT32_MOD := by
    rw [hpow] at h ⊢
    exact Nat.or_lt_two_pow h (by norm_num)
  have hb3 : network ||| 3 < UINT32_MOD := by
    rw [hpow] at h ⊢
    exact Nat.or_lt_two_pow h (by norm_num)
  have e2 : RT_BYTE2 (RTNetIPv4AddrHEToInAddr (network ||| 2))
      = (network ||| 2) / 65536 % 256 := by
    rw [RTNetIPv4AddrHEToInAddr, Nat.mod_eq_of_lt hb2, RT_BYTE2_bswap32]
  have e3 : RT_BYTE3 (RTNetIPv4AddrHEToInAddr (network ||| 2))
      = (network ||| 2) / 256 % 256 := by
    rw [RTNetIPv4AddrHEToInAddr, Nat.mod_eq_of_lt hb2, RT_BYTE3_bswap32]
  have f2 : RT_BYTE2 (RTNetIPv4AddrHEToInAddr (network ||| 3))
      = (network ||| 3) / 65536 % 256 := by
    rw [RTNetIPv4AddrHEToInAddr, Nat.mod_eq_of_lt hb3, RT_BYTE2_bswap32]
  have f3 : RT_BYTE3 (RTNetIPv4AddrHEToInAddr (network ||| 3))
      = (network ||| 3) / 256 % 256 := by
    rw [RTNetIPv4AddrHEToInAddr, Nat.mod_eq_of_lt hb3, RT_BYTE3_bswap32]
  refine ⟨rfl, rfl, rfl, rfl, ?_, ?_, ?_⟩ <;>
    simp [drvNATConstructAddrs, e2, e3, f2, f3]

/-- Claim C9, witness for the amended theorem: concrete evaluation at
Network 10.0.2.0/24 — the IPv6 host address carries the subnet bytes 00 02
taken from 10.0.2.2. -/
theorem constructAddrs_amended_witness :
    (drvNATConstructAddrs 0x0A000200).vhost6
      = (vhost6Base.set 6 ((0x0A000200 ||| 2) / 65536 % 256)).set 7
          ((0x0A000200 ||| 2) / 256 % 256) :=
  (constructAddrs_amended 0x0A000200
      (by norm_num [UINT32_MOD])).2.2.2.2.2.1

/-- Helper: no driver operation writes the GuestIP instance field. -/
theorem drvFoldl_GuestIP (ops : List DrvOp) (s : DrvNatSt) :
    (ops.foldl drvStep s).GuestIP = s.GuestIP := by
  induction ops generalizing s with
  | nil => rfl
  | cons op rest ih =>
    rw [List.foldl_cons, ih]
    cases op <;> rfl

/-- Claim C10: GuestIP is zero after drvNATConstruct and no operation writes
it, so a runtime redirect command whose guest-IP string is NULL or fails
inet_aton hands INADDR_ANY (0.0.0.0) to the engine's slirp_add_hostfwd. -/
theorem guestIP_stays_zero (ops : List DrvOp) (g : Option (Option Nat))
    (hg : g = none ∨ g = some none) :
    (drvRun ops).GuestIP = 0
    ∧ portForwardGuestAddr (drvRun ops) g = INADDR_ANY := by
  have h0 : (drvRun ops).GuestIP = 0 := by
    rw [drvRun, drvFoldl_GuestIP]
    rfl
  refine ⟨h0, ?_⟩
  obtain rfl | rfl := hg <;> simp [portForwardGuestAddr, h0, INADDR_ANY]

/-- Claim C10, witness: after a link-state change and a delivery enqueue, a
redirect whose guest-IP string fails to parse still hands INADDR_ANY to the
engine. -/
theorem guestIP_stays_zero_witness :
    (drvRun [DrvOp.notifyLinkChangedWorker PDMNETWORKLINKSTATE.down,
             DrvOp.sendPacketCbEnqueue]).GuestIP = 0
    ∧ portForwardGuestAddr
        (drvRun [DrvOp.notifyLinkChangedWorker PDMNETWORKLINKSTATE.down,
                 DrvOp.sendPacketCbEnqueue]) (some none) = INADDR_ANY :=
  guestIP_stays_zero
    [DrvOp.notifyLinkChangedWorker PDMNETWORKLINKSTATE.down,
     DrvOp.sendPacketCbEnqueue] (some none) (Or.inr rfl)

end DrvNATlibslirp
